import Mathlib

/-!
Verification development for the musepsf repository (src/musepsf/image.py and
src/musepsf/musepsf.py).

The embedding is shallow: pixel values are exact rationals, with `none` standing
for a non-finite float (NaN/inf); fallible code paths return `Except`; every
external collaborator (astropy WCS transforms, reproject, MPDAF, photutils pieces,
scipy ODR, the filesystem probe, and the repository's own utils.py helpers that
are not part of the sources under review) is an explicit function field of the
`Collab` record, so the embedded functions are ordinary executable definitions that
theorems can quantify over and witnesses can run on concrete instances.
-/

/-- A pixel value: `some q` is a finite float, `none` is a non-finite one
(NaN or infinity). -/
abbrev Val : Type := Option ℚ

/-- A 2-D data array (row-major list of rows), as `np.ndarray` of floats. -/
abbrev Arr : Type := List (List Val)

/-- A PSF kernel: a 2-D array of finite values. -/
abbrev Psf : Type := List (List ℚ)

/-- A 2-D boolean mask. -/
abbrev Mask2D : Type := List (List Bool)

/-- A FITS header, treated as an opaque token (the code only ever passes headers
around and derives WCS objects from them). -/
structure Header where
  id : ℕ
deriving DecidableEq, Repr

/-- A WCS object. astropy's `WCS(header)` is a deterministic function of the
header, so a `Wcs` is modelled as a wrapper around the header it was built from. -/
structure Wcs where
  hdr : Header
deriving DecidableEq, Repr

/-- `WCS(header)` from astropy. -/
def Wcs.ofHeader (h : Header) : Wcs := ⟨h⟩

/-- A sky coordinate (`SkyCoord`): right ascension and declination in degrees. -/
structure Coord where
  ra : ℚ
  dec : ℚ
deriving DecidableEq, Repr

/-- `EllipseSkyRegion(center, width=2*amin, height=2*amax, angle=pa)` as built by
`Image.mask_galaxy` (image.py line 207). -/
structure Region where
  center : Coord
  width : ℚ
  height : ℚ
  angle : ℚ
deriving DecidableEq, Repr

/-- One row of the Gaia catalog as used by `Image.get_gaia_catalog`. -/
structure GaiaRow where
  ra : ℚ
  dec : ℚ
  phot_g_mean_mag : ℚ
deriving DecidableEq, Repr

/-- An MPDAF image as used by the `pixscale` branch of `Image.resample`
(image.py lines 176-190): data array, data header, wcs, shape and pixel step. -/
structure MpdafImage where
  data : Arr
  data_header : Header
  wcs : Wcs
  shape : ℕ × ℕ
  step : ℚ × ℚ
deriving DecidableEq, Repr

/-- The result of `Cutout2D(data, coord, 7*u.arcsec, wcs=wcs)` in
`Image.build_startable` (image.py line 302): the cutout data (a masked array,
so it carries a mask) and the cutout's own WCS. -/
structure CutoutData where
  data : List (List Val)
  mask : List (List Bool)
  wcs : Wcs
deriving DecidableEq, Repr

/-- One comparison block for the flux-calibration regression: the two block
medians and the two block standard deviations. -/
structure OdrRow where
  mMed : Val
  mStd : ℚ
  rMed : Val
  rStd : ℚ
deriving DecidableEq, Repr

/-- Star positions as returned by `locate_stars`. -/
abbrev StarPos : Type := List (ℚ × ℚ)

/-- The fitting-routine output stored as `self.res`; `res[0]` (the best-fit
parameter vector) is the `best` field. -/
structure FitRes where
  best : List ℚ
  trace : List (List ℚ)
deriving DecidableEq, Repr

/-- The triple returned by `run_measure_psf`. -/
structure RunOut where
  res : FitRes
  star_pos : Option StarPos
  starmask : Mask2D
deriving DecidableEq, Repr

/-- The state of an `Image` object (image.py class `Image`): the attributes set
in `__init__` plus the optional derived artifacts. -/
structure ImageState where
  filename : String
  input_dir : String
  output_dir : String
  data : Arr
  header : Header
  main_header : Option (List (String × String))
  wcs : Wcs
  units : String
  galaxy : Option Region
  psf : Option Psf
  stars : Option (List GaiaRow)
  psfscale : Option ℚ
deriving DecidableEq, Repr

/-- The state of a `MUSEImage` object (musepsf.py class `MUSEImage`): the
inherited `Image` state plus the MUSE-specific attributes. -/
structure MuseState where
  base : ImageState
  scale : ℚ
  region_dir : String
  res : Option FitRes
  star_pos : Option StarPos
  starmask : Option Mask2D
  best_fit : Option (List ℚ)
deriving DecidableEq, Repr

/-- External collaborators (astropy, reproject, MPDAF, astroquery, photutils,
scipy, the filesystem, and utils.py helpers that are outside the reviewed
sources), each as an explicit function so that the embedded code is executable
and theorems can quantify over the collaborators' behaviour. -/
structure Collab where
  /-- `reproject_interp((data, header_from), header_to, return_footprint=False)`. -/
  reproject_interp : Arr → Header → Header → Arr
  /-- `wcs.proj_plane_pixel_area()`. -/
  proj_plane_pixel_area : Wcs → ℚ
  /-- `wcs.proj_plane_pixel_scales()[0].to(u.arcsec).value`. -/
  proj_plane_pixel_scale : Wcs → ℚ
  /-- `wcs.world_to_pixel(coord)` as an (x, y) pair. -/
  world_to_pixel : Wcs → Coord → ℚ × ℚ
  /-- `wcs.pixel_to_world(x, y)`. -/
  pixel_to_world : Wcs → ℚ × ℚ → Coord
  /-- `wcs.footprint_contains(coord)`. -/
  footprint_contains : Wcs → Coord → Bool
  /-- `region.contains(coords, wcs=wcs)` evaluated at one coordinate. -/
  region_contains : Region → Wcs → Coord → Bool
  /-- `query_gaia(center, radius)` from utils.py (external catalog service). -/
  query_gaia : Coord → ℚ → List GaiaRow
  /-- `remove_close_stars(coords)` from utils.py: a boolean keep-mask. -/
  remove_close_stars : List Coord → List Bool
  /-- `Cutout2D(data, coord, 7*u.arcsec, wcs=wcs)`; `none` models the
  `NoOverlapError` raised when the position does not overlap the array. -/
  cutout2d : Arr → Coord → ℚ → Wcs → Option CutoutData
  /-- `mpdaf.obj.Image(filename=path)`: the image as loaded from the file at
  the given path (a pure function of the path, i.e. of the file contents). -/
  mpdaf_open : String → MpdafImage
  /-- `image.crop()`. -/
  mpdaf_crop : MpdafImage → MpdafImage
  /-- `image.resample(newdim, newstart=None, newstep=0.2, flux=True, order=3)`;
  arguments are (image, newdim, newstep). -/
  mpdaf_resample : MpdafImage → ℤ × ℤ → ℚ → MpdafImage
  /-- The robust per-block statistic used by `bin_image` (sigma-clipped median
  and standard deviation of one block). -/
  blockStats : List Val → Val × ℚ
  /-- `scipy.odr` fitting `linear_function` on the valid blocks: arguments are
  the data rows (medians plus both error estimates) and `beta0`; result is the
  fitted `(gamma, offset)`. -/
  odr : List OdrRow → ℚ × ℚ → ℚ × ℚ
  /-- `locate_stars(data, filename=...)` from utils.py. -/
  locate_stars : Arr → Option String → Option StarPos × Mask2D
  /-- `run_measure_psf` from utils.py; arguments are (data, ref_data, psf,
  star_pos, starmask, zeromask, oversample, scale, fit_alpha, alpha, fwhm0,
  offset, edge, dx0, dy0); the plotting-only arguments are omitted. -/
  run_measure_psf : Arr → Arr → Psf → Option StarPos → Mask2D → Mask2D → ℕ → ℚ →
    Bool → ℚ → ℚ → Bool → ℚ → ℚ → ℚ → RunOut
  /-- `scipy.ndimage.rotate(psf, angle)`. -/
  rotate : Psf → ℚ → Psf
  /-- `scipy.ndimage.zoom(data, zoom=oversample)` on a data array. -/
  zoom_arr : Arr → ℕ → Arr
  /-- `scipy.ndimage.zoom(psf, zoom=oversample)` on a PSF kernel. -/
  zoom_psf : Psf → ℕ → Psf
  /-- `np.arctan2(y, x) * 180 / pi`: the radian-to-degree conversion is folded
  into the collaborator hook because pi is not rational. -/
  arctan2_deg : ℚ → ℚ → ℚ
  /-- `wcs.pixel_scale_matrix` as ((CD00, CD01), (CD10, CD11)). -/
  pixel_scale_matrix : Wcs → (ℚ × ℚ) × (ℚ × ℚ)
  /-- `os.path.isfile(path)`. -/
  isfile : String → Bool
  /-- The multiplicative factor of `(data * units).to(out_units, equivalencies)`
  used by `Image.convert_units` (flux-like units convert by a scalar factor). -/
  unit_to : String → String → ℚ

/-- `os.path.join(dir, name)` for the simple two-component case used here. -/
def pathJoin (dir name : String) : String := dir ++ "/" ++ name

/-- Multiply every pixel of an array by a finite scalar (`data * factor`);
non-finite pixels stay non-finite. -/
def arrScale (c : ℚ) (a : Arr) : Arr :=
  a.map (fun row => row.map (fun v => v.map (fun x => c * x)))

/-- Elementwise affine map `gamma * data + offset`; non-finite pixels stay
non-finite. -/
def arrAffine (g b : ℚ) (a : Arr) : Arr :=
  a.map (fun row => row.map (fun v => v.map (fun x => g * x + b)))

/-- `True` exactly for an `Except.error`. -/
def isError {α : Type} (e : Except String α) : Bool :=
  match e with
  | .error _ => true
  | .ok _ => false

/-- Decidable equality on `Except`, so that concrete runs of the embedded
functions can be settled by evaluation. -/
instance {ε α : Type} [DecidableEq ε] [DecidableEq α] : DecidableEq (Except ε α) :=
  fun a b =>
    match a, b with
    | .error x, .error y =>
      if h : x = y then .isTrue (congrArg Except.error h)
      else .isFalse (fun hc => h (Except.error.inj hc))
    | .ok x, .ok y =>
      if h : x = y then .isTrue (congrArg Except.ok h)
      else .isFalse (fun hc => h (Except.ok.inj hc))
    | .error _, .ok _ => .isFalse (fun hc => Except.noConfusion hc)
    | .ok _, .error _ => .isFalse (fun hc => Except.noConfusion hc)

/-- `Image.resample(header=..., pixscale=..., inplace=...)` (image.py lines
131-190). The result is the post-call state of `self` paired with the value the
method returns (`some` triple only when `inplace=False` gave output). Note that
the `header` branch assigns `self.data` from `reproject_interp` *before* testing
`inplace` (line 163), so the object's data is replaced even when
`inplace=False`; and the `pixscale` branch re-opens the original file with MPDAF
(line 178) instead of using the in-memory data array. -/
def Image.resample (ext : Collab) (img : ImageState) (header : Option Header)
    (pixscale : Option ℚ) (inplace : Bool) :
    Except String (ImageState × Option (Arr × Wcs × Header)) :=
  match header, pixscale with
  | none, none => .error "One between header and pixscale must be defined"
  | some _, some _ => .error "Only one between header and pixscale can be defined"
  | some h, none =>
    let data1 := ext.reproject_interp img.data img.header h
    let area_old := ext.proj_plane_pixel_area img.wcs
    let area_new := ext.proj_plane_pixel_area (Wcs.ofHeader h)
    let factor := area_new / area_old
    if inplace then
      .ok ({ img with data := arrScale factor data1, wcs := Wcs.ofHeader h, header := h }, none)
    else
      .ok ({ img with data := data1 }, some (arrScale factor data1, Wcs.ofHeader h, h))
  | none, some ps =>
    let image0 := ext.mpdaf_open (pathJoin img.input_dir img.filename)
    let image1 := ext.mpdaf_crop image0
    let scale := (image1.step.1 * 3600, image1.step.2 * 3600)
    let newdim_y := Int.floor ((image1.shape.1 : ℚ) * scale.1 / ps)
    let newdim_x := Int.floor ((image1.shape.2 : ℚ) * scale.2 / ps)
    let image2 := ext.mpdaf_resample image1 (newdim_y, newdim_x) (2/10)
    if inplace then
      .ok ({ img with data := image2.data, header := image2.data_header, wcs := image2.wcs }, none)
    else
      .ok (img, some (image2.data, image2.wcs, image2.data_header))

/-- `Image.convert_units(out_units, equivalency)` (image.py lines 491-506):
`tmp = data * units; tmp = tmp.to(out_units); data = tmp.value; units = out`.
For the flux-like units involved the conversion is a multiplicative factor,
supplied by the `unit_to` collaborator hook. -/
def Image.convert_units (ext : Collab) (img : ImageState) (out_units : String) : ImageState :=
  { img with data := arrScale (ext.unit_to img.units out_units) img.data, units := out_units }

/-- Boolean-mask selection `table[mask]` on a list (numpy boolean indexing). -/
def maskSelect {α : Type} (l : List α) (m : List Bool) : List α :=
  ((l.zip m).filter (fun p => p.2)).map (fun p => p.1)

/-- `Image.get_gaia_catalog(center, gmin, gmax, radius)` (image.py lines
215-267). The steps, each on the survivors of the previous one: close-star
removal, inclusive G-magnitude selection, a 15-pixel edge margin in pixel
coordinates, the on-sky footprint test, and the galaxy-region exclusion.
`mask2` is a Python local bound only inside `if self.galaxy is not None:`
(line 261) yet read unconditionally in the selection on line 263, so when no
galaxy region has been set the method raises `NameError`; the embedding
returns that as an `Except.error`. -/
def Image.get_gaia_catalog (ext : Collab) (img : ImageState) (center : Coord)
    (gmin gmax radius : ℚ) : Except String ImageState :=
  let gaia_cat0 := ext.query_gaia center radius
  let coords0 := gaia_cat0.map (fun r => Coord.mk r.ra r.dec)
  -- removing very nearby sources from the catalog
  let good_stars := ext.remove_close_stars coords0
  let gaia_cat1 := maskSelect gaia_cat0 good_stars
  let coords1 := maskSelect coords0 good_stars
  -- selecting based on the G magnitude
  let mask1 := gaia_cat1.map (fun r =>
    decide (gmin ≤ r.phot_g_mean_mag) && decide (r.phot_g_mean_mag ≤ gmax))
  let gaia_cat2 := maskSelect gaia_cat1 mask1
  let coords2 := maskSelect coords1 mask1
  -- filter to remove objects near the edges of the image
  let xy := coords2.map (ext.world_to_pixel img.wcs)
  let margin : ℚ := 15
  let height : ℚ := (img.data.length : ℚ)
  let width : ℚ := ((img.data.headD []).length : ℚ)
  let valid_mask := xy.map (fun p =>
    (decide (margin ≤ p.1) && decide (p.1 < width - margin)) &&
    (decide (margin ≤ p.2) && decide (p.2 < height - margin)))
  -- making sure the stars are inside the image
  let inside := coords2.map (ext.footprint_contains img.wcs)
  match img.galaxy with
  | some gal =>
    let mask2 := coords2.map (fun c => ext.region_contains gal img.wcs c)
    let keep := (inside.zip (mask2.zip valid_mask)).map
      (fun p => p.1 && !p.2.1 && p.2.2)
    .ok { img with stars := some (maskSelect gaia_cat2 keep) }
  | none =>
    -- reading the unbound local `mask2` raises in Python
    .error "NameError: name mask2 is not defined"

/-- Element access `a[i][j]` on a 2-D list, with numpy-style out-of-range
modelled as a non-finite value (only used at in-range indices). -/
def getVal (a : List (List Val)) (i j : ℕ) : Val := ((a.getD i []).getD j none)

/-- `np.isfinite(a).all()`. -/
def allFinite (a : List (List Val)) : Bool := a.all (fun row => row.all Option.isSome)

/-- `mask.sum()` on a boolean mask: the number of `True` entries. -/
def maskSum (m : List (List Bool)) : ℕ := (m.map (fun row => row.count true)).sum

/-- `np.nanmax(a)`: the maximum over the finite entries. -/
def nanmax (a : List (List Val)) : ℚ :=
  match (a.flatten).filterMap id with
  | [] => 0
  | x :: xs => xs.foldl max x

/-- The finite value at an index pair, defaulting to 0 (used only on all-finite
cutouts). -/
def qval (a : List (List Val)) (p : ℕ × ℕ) : ℚ := (getVal a p.1 p.2).getD 0

/-- `np.unravel_index(a.argmax(), a.shape)`: the row-major first position of the
maximal value (the cutout is all-finite when this is reached). -/
def argmax2d (a : List (List Val)) : ℕ × ℕ :=
  let idx := (List.range a.length).flatMap (fun i =>
    (List.range ((a.getD i []).length)).map (fun j => (i, j)))
  match idx with
  | [] => (0, 0)
  | p :: ps => ps.foldl (fun best q => if qval a best < qval a q then q else best) p

/-- The finite values of the up-to-8 in-bounds neighbours of a pixel. -/
def neighborVals (a : List (List Val)) (i j : ℕ) : List ℚ :=
  ([(-1, -1), (-1, 0), (-1, 1), (0, -1), (0, 1), (1, -1), (1, 0), (1, 1)] :
      List (ℤ × ℤ)).filterMap (fun d =>
    let i2 : ℤ := (i : ℤ) + d.1
    let j2 : ℤ := (j : ℤ) + d.2
    if 0 ≤ i2 ∧ 0 ≤ j2 then getVal a i2.toNat j2.toNat else none)

/-- Modelled from the spec: `find_peaks_2d` lives in musepsf/utils.py, which is
not among the sources under review; section 4.2 of the spec describes it as 2-D
local-maximum peak detection with a relative intensity threshold. A peak is a
finite pixel whose value clears the threshold and strictly exceeds all of its
in-bounds finite neighbours; peaks are reported as (row, col) in row-major
order. -/
def find_peaks_2d (a : List (List Val)) (threshold : ℚ) : List (ℕ × ℕ) :=
  (List.range a.length).flatMap (fun i =>
    (List.range ((a.getD i []).length)).filterMap (fun j =>
      match getVal a i j with
      | none => none
      | some x =>
        if decide (threshold < x) && (neighborVals a i j).all (fun y => decide (y < x))
        then some (i, j) else none))

/-- The data-quality filter at the top of the `build_startable` loop body
(image.py lines 300-308): `Cutout2D` with a 7-arcsec box (skipping the entry on
`NoOverlapError`), the `np.isfinite(...).all()` test, and the
`zoom.data.mask.sum() >= 5` test. A surviving cutout proceeds to peak
detection. -/
def build_startable_filter (ext : Collab) (data : Arr) (wcs : Wcs) (coord : Coord) :
    Option CutoutData :=
  match ext.cutout2d data coord 7 wcs with
  | none => none
  | some zoom =>
    if !(allFinite zoom.data) then none
    else if 5 ≤ maskSum zoom.mask then none
    else some zoom

/-- The peak-detection dispatch of the `build_startable` loop body (image.py
lines 310-316): peaks above 5 percent of the cutout maximum; more than one peak
skips the entry, exactly one becomes the guess, none falls back to the global
argmax. -/
def build_startable_refine (zoom : CutoutData) : Option (ℕ × ℕ) :=
  let peaks := find_peaks_2d zoom.data (5/100 * nanmax zoom.data)
  if peaks.length > 1 then none
  else if peaks.length = 0 then some (argmax2d zoom.data)
  else some (peaks.headD (0, 0))

/-- One refined star position produced by `build_startable`: full-frame pixel
coordinates and the refined sky coordinate. -/
structure StarRow where
  x : ℚ
  y : ℚ
  ra : ℚ
  dec : ℚ
deriving DecidableEq, Repr

/-- One iteration of the `build_startable` loop (image.py lines 300-328): the
data-quality filter, the peak dispatch, and the pixel-sky-pixel coordinate
round trip of the chosen guess (`pixel_to_world(guess[1], guess[0])`, then
`world_to_pixel` in the supplied frame). -/
def process_star (ext : Collab) (data : Arr) (wcs : Wcs) (coord : Coord) :
    Option StarRow :=
  match build_startable_filter ext data wcs coord with
  | none => none
  | some zoom =>
    match build_startable_refine zoom with
    | none => none
    | some guess =>
      let newcoord := ext.pixel_to_world zoom.wcs ((guess.2 : ℚ), (guess.1 : ℚ))
      let newpix := ext.world_to_pixel wcs newcoord
      some { x := newpix.1, y := newpix.2, ra := newcoord.ra, dec := newcoord.dec }

/-- `Image.build_startable(coords, data, wcs)` (image.py lines 271-358), the
numerical content: each entry is processed independently and a skipped entry
(`continue`) does not stop the remaining ones; plotting and table I/O are
one-way sinks and are omitted. -/
def Image.build_startable (ext : Collab) (data : Arr) (wcs : Wcs)
    (coords : List Coord) : List StarRow :=
  coords.filterMap (process_star ext data wcs)

/-- `np.sum` of a 2-D kernel. -/
def psum (p : Psf) : ℚ := (p.map (fun row => row.sum)).sum

/-- Elementwise `kernel / flux`. -/
def psfDiv (p : Psf) (s : ℚ) : Psf := p.map (fun row => row.map (fun x => x / s))

/-- The end of `Image.build_psf` (image.py lines 438-456): `sys.exit` when the
builder accepted no good stars, otherwise the kernel is stored (and written to
the PSF file, with its PSFSCALE card) as-is when its total flux is within 1e-4
of 1, and divided by its total flux otherwise. The `Except.ok` payload is the
array that becomes both `self.psf` and the persisted HDU data. -/
def build_psf_finalize (n_good_stars : ℕ) (new_psf : Psf) : Except String Psf :=
  if n_good_stars > 0 then
    let psf_flux := psum new_psf
    if |1 - psf_flux| < 1/10000 then .ok new_psf
    else .ok (psfDiv new_psf psf_flux)
  else .error "No stars were used for the fit."

/-- One `bin_size` x `bin_size` block of the array (rows i*b..i*b+b-1, columns
j*b..j*b+b-1), flattened. -/
def getBlock (data : Arr) (b i j : ℕ) : List Val :=
  (((data.drop (i * b)).take b).map (fun row => (row.drop (j * b)).take b)).flatten

/-- Modelled from the spec: `bin_image` lives in musepsf/utils.py, which is not
among the sources under review; section 4.4 of the spec describes it as tiling
the image into non-overlapping `binSize` x `binSize` blocks, each yielding a
robust (sigma-clipped) median and standard deviation. The tiling (full blocks,
row-major) is embedded here; the per-block sigma-clipped statistic itself is the
`blockStats` collaborator hook. Returns (medians, standard deviations). -/
def bin_image (ext : Collab) (data : Arr) (bin_size : ℕ) : List Val × List ℚ :=
  let nrows := data.length / bin_size
  let ncols := (data.headD []).length / bin_size
  let blocks := (List.range nrows).flatMap (fun i =>
    (List.range ncols).map (fun j => getBlock data bin_size i j))
  let stats := blocks.map ext.blockStats
  (stats.map (fun s => s.1), stats.map (fun s => s.2))

/-- The per-block regression rows of `check_flux_calibration`: MUSE median and
std paired with reference median and std, block by block. -/
def odr_rows (ext : Collab) (museData reference : Arr) (bin_size : ℕ) : List OdrRow :=
  let m := bin_image ext museData bin_size
  let r := bin_image ext reference bin_size
  ((m.1.zip m.2).zip (r.1.zip r.2)).map (fun p =>
    { mMed := p.1.1, mStd := p.1.2, rMed := p.2.1, rStd := p.2.2 })

/-- The `valid_mask` of `check_flux_calibration` (musepsf.py line 259): a block
enters the regression exactly when neither median is NaN and neither median is
exactly zero. -/
def valid_rows (ext : Collab) (museData reference : Arr) (bin_size : ℕ) : List OdrRow :=
  (odr_rows ext museData reference bin_size).filter (fun r =>
    r.mMed.isSome && r.rMed.isSome &&
    decide (r.mMed ≠ some 0) && decide (r.rMed ≠ some 0))

/-- `MUSEImage.check_flux_calibration(reference, bin_size)` (musepsf.py lines
231-296) at its call sites, where `reference` is the reference data array and
`resample=False` (the default; the `resample=True` branch, which first
reprojects a reference Image in place, is not exercised by the repository and
is outside the claims): both arrays are binned, blocks with NaN or zero medians
are dropped, scipy ODR fits `reference ~ gamma*MUSE + offset` from `beta0=[1,0]`
with both error estimates, and the correction `gamma*data + offset` is applied
in place to the MUSE data; plotting and printing are omitted. -/
def check_flux_calibration (ext : Collab) (self : MuseState) (reference : Arr)
    (bin_size : ℕ) : MuseState :=
  let valid := valid_rows ext self.base.data reference bin_size
  let beta := ext.odr valid (1, 0)
  { self with base := { self.base with data := arrAffine beta.1 beta.2 self.base.data } }

/-- `np.around`'s round-half-to-even on an integer-scaled value. -/
def round_half_even (y : ℚ) : ℤ :=
  let f := Int.floor y
  if y - f < 1/2 then f
  else if 1/2 < y - f then f + 1
  else if f % 2 = 0 then f else f + 1

/-- `np.around(x, 3)`. -/
def round3 (x : ℚ) : ℚ := (round_half_even (x * 1000) : ℚ) / 1000

/-- `MUSEImage.get_rot()` (musepsf.py lines 299-308): the angle of the y-axis
with respect to celestial north, `arctan2(-CD[0,1], CD[1,1])` in degrees. -/
def get_rot (ext : Collab) (w : Wcs) : ℚ :=
  let cd := ext.pixel_scale_matrix w
  ext.arctan2_deg (-(cd.1.2)) cd.2.2

/-- `(self.data == 0) | (~np.isfinite(self.data))` (musepsf.py line 156). -/
def zeroOrNanMask (a : Arr) : Mask2D :=
  a.map (fun row => row.map (fun v => decide (v = some 0) || !v.isSome))

/-- `data[np.isnan(data)] = 0` (musepsf.py line 203); the embedding does not
distinguish NaN from infinity among non-finite values. -/
def nanToZero (a : Arr) : Arr :=
  a.map (fun row => row.map (fun v => match v with | none => some 0 | some x => some x))

/-- `np.zeros(data.shape, dtype=bool)`. -/
def falseMask (a : Arr) : Mask2D := a.map (fun row => row.map (fun _ => false))

/-- A card lookup in the main FITS header; `none` covers both a missing card
and a missing main header (both raise in Python). -/
def lookupCard (mh : Option (List (String × String))) (key : String) : Option String :=
  mh.bind (fun l => l.lookup key)

/-- The intermediate quantities produced by the oversampling branch of
`measure_psf` (musepsf.py lines 202-215): the (possibly NaN-zeroed) array that
`self.data` aliases, the fit input arrays, the prepared PSF, the working pixel
scale and the effective oversampling factor. -/
structure OvOut where
  selfData : Arr
  fitData : Arr
  refData : Arr
  psf : Psf
  scale : ℚ
  ov : ℕ
deriving DecidableEq, Repr

/-- The result of `MUSEImage.measure_psf`: the post-call states of the MUSE
image and of the borrowed reference image (both are mutated in place by the
Python code). -/
structure MeasureOut where
  self : MuseState
  reference : ImageState
deriving DecidableEq, Repr

/-- `MUSEImage.measure_psf(reference, fit_alpha, offset, oversample, **kwargs)`
(musepsf.py lines 117-227), with plotting, printing and region-file writing (the
one-way sinks) omitted and the `kwargs.pop` defaults (`edge=50`, `dx0=0`,
`dy0=0`, `fwhm0=0.8`, `mask_stars=True`) passed explicitly. The three leading
`assert` statements become `Except.error`; then the reference is resampled in
place onto the MUSE header, the zero/NaN mask is taken, the flux calibration is
applied in place to the MUSE data, the Moffat alpha default is chosen from the
instrument-configuration card, stars are located (reading the region file if
the filesystem has one), the reference PSF is rotated by the detected frame
rotation, the oversampling branch prepares the arrays, and `run_measure_psf`
produces the fit stored on `self`. -/
def measure_psf (ext : Collab) (self : MuseState) (reference : ImageState)
    (fit_alpha offset : Bool) (oversample : Option ℕ)
    (edge dx0 dy0 fwhm0 : ℚ) (mask_stars : Bool) :
    Except String MeasureOut :=
  if self.base.units ≠ reference.units then
    .error "The two images are not in the same units"
  else if reference.psf = none then
    .error "The reference PSF is missing"
  else if reference.psfscale ≠ some (round3 (ext.proj_plane_pixel_scale self.base.wcs)) then
    .error "The PSF has been created with a different pixel scale"
  else
    -- resampling the reference to the MUSE WCS (inplace=True default)
    match Image.resample ext reference (some self.base.header) none true with
    | .error e => .error e
    | .ok (ref1, _) =>
      let zeromask := zeroOrNanMask self.base.data
      -- rescaling the flux, in place on self
      let self1 := check_flux_calibration ext self ref1.data 15
      match lookupCard self1.base.main_header "HIERARCH ESO TPL ID" with
      | none => .error "KeyError: HIERARCH ESO TPL ID"
      | some tpl =>
        let alpha : ℚ := if tpl = "MUSE_wfm-ao_obs_genericoffsetLGS" then 23/10 else 28/10
        let data := self1.base.data
        let reg_name := pathJoin self1.region_dir
          (self1.base.filename.replace ".fits" "_regions.reg")
        let located :=
          if mask_stars then
            if ext.isfile reg_name then ext.locate_stars data (some reg_name)
            else ext.locate_stars data none
          else (none, falseMask data)
        let star_pos := located.1
        let starmask := located.2
        -- get the rotation of the image and apply it to the PSF
        let img_rot := get_rot ext self1.base.wcs
        let psf0 := ref1.psf.getD []
        let psf1 := if img_rot ≠ 0 then ext.rotate psf0 img_rot else psf0
        let o : OvOut :=
          match oversample with
          | some ov =>
            if 1 < ov then
              let dataZ := nanToZero data
              let fitData := arrScale (1 / ((ov : ℚ)) ^ 2) (ext.zoom_arr dataZ ov)
              let refData := arrScale (1 / ((ov : ℚ)) ^ 2) (ext.zoom_arr ref1.data ov)
              let psfZ := ext.zoom_psf psf1 ov
              { selfData := dataZ, fitData := fitData, refData := refData,
                psf := psfDiv psfZ (psum psfZ), scale := self1.scale / (ov : ℚ), ov := ov }
            else
              { selfData := data, fitData := data, refData := ref1.data,
                psf := psf1, scale := self1.scale, ov := 1 }
          | none =>
            { selfData := data, fitData := data, refData := ref1.data,
              psf := psf1, scale := self1.scale, ov := 1 }
        let out := ext.run_measure_psf o.fitData o.refData o.psf star_pos starmask
          zeromask o.ov o.scale fit_alpha alpha fwhm0 offset edge dx0 dy0
        .ok { self := { self1 with
                base := { self1.base with data := o.selfData },
                res := some out.res,
                star_pos := out.star_pos,
                starmask := some out.starmask,
                best_fit := some out.res.best },
              reference := ref1 }

/-- A concrete cutout with exactly five flagged (masked) pixels and all-finite
data: the boundary case of the `mask.sum() >= 5` test. -/
def z5 : CutoutData :=
  { data := [[some 1, some 1, some 1], [some 1, some 2, some 1], [some 1, some 1, some 1]],
    mask := [[true, true, true], [true, true, false], [false, false, false]],
    wcs := ⟨⟨0⟩⟩ }

/-- A concrete MPDAF image used as the file content behind `mpdaf_open`. -/
def mp0 : MpdafImage :=
  { data := [[some 3]], data_header := ⟨5⟩, wcs := ⟨⟨5⟩⟩, shape := (1, 1), step := (1, 1) }

/-- A concrete, fully executable collaborator instance for witnesses and
counterexamples. -/
def ext0 : Collab :=
  { reproject_interp := fun _ _ _ => [[some 7]]
    proj_plane_pixel_area := fun _ => 1
    proj_plane_pixel_scale := fun _ => 1
    world_to_pixel := fun _ c => (c.ra, c.dec)
    pixel_to_world := fun _ p => ⟨p.1, p.2⟩
    footprint_contains := fun _ _ => true
    region_contains := fun _ _ _ => false
    query_gaia := fun _ _ => [⟨20, 20, 10⟩]
    remove_close_stars := fun cs => cs.map (fun _ => true)
    cutout2d := fun _ _ _ _ => some z5
    mpdaf_open := fun _ => mp0
    mpdaf_crop := fun m => m
    mpdaf_resample := fun m _ _ => m
    blockStats := fun _ => (some 1, 1)
    odr := fun _ b => b
    locate_stars := fun _ _ => (none, [])
    run_measure_psf := fun _ _ _ _ _ _ _ _ _ _ _ _ _ _ _ =>
      { res := { best := [1], trace := [] }, star_pos := none, starmask := [] }
    rotate := fun p _ => p
    zoom_arr := fun a _ => a
    zoom_psf := fun p _ => p
    arctan2_deg := fun _ _ => 0
    pixel_scale_matrix := fun _ => ((1, 0), (0, 1))
    isfile := fun _ => false
    unit_to := fun _ _ => 2 }

/-- A concrete small image (1 x 1 data, no galaxy region). -/
def imgA : ImageState :=
  { filename := "a.fits", input_dir := ".", output_dir := ".",
    data := [[some 1]], header := ⟨1⟩, main_header := none, wcs := ⟨⟨1⟩⟩,
    units := "u", galaxy := none, psf := none, stars := none, psfscale := none }

/-- A reprojection target header distinct from `imgA`'s. -/
def hB : Header := ⟨2⟩

/-- A concrete 40 x 40 image with no galaxy region set (`mask_galaxy` never
called). -/
def imgG : ImageState :=
  { filename := "g.fits", input_dir := ".", output_dir := ".",
    data := List.replicate 40 (List.replicate 40 (some 1)),
    header := ⟨3⟩, main_header := none, wcs := ⟨⟨3⟩⟩,
    units := "u", galaxy := none, psf := none, stars := none, psfscale := none }

/-- A concrete elliptical galaxy region. -/
def reg0 : Region := { center := ⟨0, 0⟩, width := 1, height := 1, angle := 0 }

/-- `imgG` after `mask_galaxy` has set an exclusion region. -/
def imgG2 : ImageState := { imgG with galaxy := some reg0 }

/-- The `Image` part of a concrete MUSE image state whose preconditions for
`measure_psf` hold against `ref0`. -/
def museBase : ImageState :=
  { filename := "m.fits", input_dir := ".", output_dir := ".",
    data := [[some 1]], header := ⟨20⟩,
    main_header := some [("HIERARCH ESO TPL ID", "OTHER")], wcs := ⟨⟨20⟩⟩,
    units := "u", galaxy := none, psf := none, stars := none, psfscale := none }

/-- The full MUSE state built on `museBase`. -/
def muse0 : MuseState :=
  { base := museBase, scale := 1, region_dir := "./regions",
    res := none, star_pos := none, starmask := none, best_fit := none }

/-- A concrete reference image carrying a PSF at the matching recorded pixel
scale and in the same units as `muse0`. -/
def ref0 : ImageState :=
  { filename := "r.fits", input_dir := ".", output_dir := ".",
    data := [[some 4]], header := ⟨10⟩, main_header := none, wcs := ⟨⟨10⟩⟩,
    units := "u", galaxy := none, psf := some [[1]], stars := none, psfscale := some 1 }

/-- `ref0` with its PSF removed: violates the second `measure_psf`
precondition. -/
def refNoPsf : ImageState := { ref0 with psf := none }

/-- The MUSE-side post state of `measure_psf ext0 muse0 ref0 ...`: the flux
correction fitted by `ext0.odr` on an empty block list is the seed `(1, 0)`, so
the data survives unchanged, and the fit output of `ext0.run_measure_psf` is
stored. -/
def out0self : MuseState :=
  { base := museBase, scale := 1, region_dir := "./regions",
    res := some { best := [1], trace := [] }, star_pos := none,
    starmask := some [], best_fit := some [1] }

/-- The reference-side post state of `measure_psf ext0 muse0 ref0 ...`: the
borrowed reference after its in-place resampling onto the MUSE header. -/
def out0ref : ImageState := { ref0 with data := [[some 7]], header := ⟨20⟩, wcs := ⟨⟨20⟩⟩ }

/-- The concrete result of `measure_psf ext0 muse0 ref0` with the default
keyword arguments. -/
def out0 : MeasureOut := { self := out0self, reference := out0ref }

/-- Summing a list after dividing every element by `s` equals dividing the sum
by `s`. -/
theorem lsum_map_div (l : List ℚ) (s : ℚ) : (l.map (fun x => x / s)).sum = l.sum / s := by
  induction l with
  | nil => simp
  | cons a t ih => simp [ih, add_div]

/-- The total flux of `psfDiv p s` is `psum p / s`. -/
theorem psum_psfDiv (p : Psf) (s : ℚ) : psum (psfDiv p s) = psum p / s := by
  induction p with
  | nil => simp [psum, psfDiv]
  | cons r t ih =>
    simp only [psum, psfDiv, List.map_cons, List.sum_cons] at ih ⊢
    rw [lsum_map_div, ih, add_div]

set_option maxRecDepth 20000 in
/-- C1: the claim states that, when no exclusion region (galaxy mask) has been
set, the exclusion test of catalog curation is skipped and curation completes
normally with the catalog filtered by the remaining criteria. The code instead
reads the local `mask2`, bound only inside `if self.galaxy is not None:`
(image.py lines 260-263), so the run aborts with a NameError; the guard shows
the skip was intended, making this a code bug. On the same image with a galaxy
region set, curation completes and returns the filtered catalog. -/
theorem get_gaia_catalog_no_galaxy_name_error :
    Image.get_gaia_catalog ext0 imgG ⟨0, 0⟩ 0 20 10 =
      .error "NameError: name mask2 is not defined" ∧
    imgG.galaxy = none ∧
    Image.get_gaia_catalog ext0 imgG2 ⟨0, 0⟩ 0 20 10 =
      .ok { imgG2 with stars := some [⟨20, 20, 10⟩] } := by
  refine ⟨by with_unfolding_all rfl, rfl, by with_unfolding_all rfl⟩

/-- C2: the claim states that with `inplace=False` the object's data, wcs and
header are all left unchanged by `resample`. In the `header` branch the code
assigns `self.data = reproject_interp(...)` before testing `inplace` (image.py
line 163), so the object's data is replaced (without the area factor) while its
wcs and header keep the old grid, contradicting the docstring: evaluated at a
concrete input, the post-state data is the reprojected array, not the original
one. -/
theorem resample_header_not_inplace_mutates_data :
    (Image.resample ext0 imgA (some hB) none false).map
        (fun p => (p.1.data, p.1.header, p.1.wcs, p.2)) =
      .ok ([[some 7]], imgA.header, imgA.wcs, some ([[some 7]], Wcs.ofHeader hB, hB)) ∧
    imgA.data = [[some 1]] ∧ ([[some 7]] : Arr) ≠ [[some 1]] :=
  ⟨by with_unfolding_all rfl, rfl, by decide⟩

set_option maxRecDepth 20000 in
/-- C3 counterexample: the claim states that `measure_psf` leaves the borrowed
reference image's data, WCS and header unchanged; on a concrete successful run
the reference comes back with the target's header and grid (musepsf.py line
149 resamples the reference in place), so the claim as stated is false. -/
theorem measure_psf_reference_header_changed :
    (measure_psf ext0 muse0 ref0 false false none 50 0 0 (4/5) true).map
        (fun o => (o.reference.data, o.reference.header, o.reference.wcs)) =
      .ok ([[some 7]], muse0.base.header, Wcs.ofHeader muse0.base.header) ∧
    ref0.data = [[some 4]] ∧ ref0.header ≠ muse0.base.header :=
  ⟨by with_unfolding_all rfl, rfl, by decide⟩

/-- C3 amended: every successful `measure_psf` run resamples the borrowed
reference in place onto the target's grid — afterwards the reference's header
is the target's header, its wcs is derived from that header, and its data is
the area-ratio-scaled reprojection — while the reference's psf and psfscale
(and all its other fields) are not mutated. -/
theorem measure_psf_reference_resampled_in_place
    (ext : Collab) (self : MuseState) (reference : ImageState)
    (fit_alpha offset : Bool) (oversample : Option ℕ) (edge dx0 dy0 fwhm0 : ℚ)
    (mask_stars : Bool) (out : MeasureOut)
    (h : measure_psf ext self reference fit_alpha offset oversample
        edge dx0 dy0 fwhm0 mask_stars = .ok out) :
    out.reference = { reference with
      data := arrScale (ext.proj_plane_pixel_area (Wcs.ofHeader self.base.header) /
                        ext.proj_plane_pixel_area reference.wcs)
                (ext.reproject_interp reference.data reference.header self.base.header),
      wcs := Wcs.ofHeader self.base.header,
      header := self.base.header } := by
  revert h
  unfold measure_psf
  split
  · intro h; exact Except.noConfusion h
  split
  · intro h; exact Except.noConfusion h
  split
  · intro h; exact Except.noConfusion h
  simp only [Image.resample, if_true, ite_true]
  split
  · intro h; exact Except.noConfusion h
  intro h
  injection h with h
  subst h
  rfl

set_option maxRecDepth 20000 in
/-- Witness for the amended C3 theorem at the concrete run
`measure_psf ext0 muse0 ref0`. -/
theorem measure_psf_reference_resampled_in_place_witness :
    out0.reference = { ref0 with
      data := arrScale (ext0.proj_plane_pixel_area (Wcs.ofHeader muse0.base.header) /
                        ext0.proj_plane_pixel_area ref0.wcs)
                (ext0.reproject_interp ref0.data ref0.header muse0.base.header),
      wcs := Wcs.ofHeader muse0.base.header,
      header := muse0.base.header } :=
  measure_psf_reference_resampled_in_place ext0 muse0 ref0 false false none
    50 0 0 (4/5) true out0 (by with_unfolding_all rfl)

/-- C4 counterexample: the claim says an entry is skipped exactly when its
cutout is out of bounds, non-finite, or has strictly more than 5 flagged
pixels, and that entries at or below 5 flagged pixels proceed. The code tests
`zoom.data.mask.sum() >= 5` (image.py line 307), so a finite, overlapping
cutout with exactly 5 flagged pixels is skipped even though none of the
claim's skip conditions holds. -/
theorem star_filter_five_masked_skipped :
    build_startable_filter ext0 imgG.data ⟨⟨3⟩⟩ ⟨0, 0⟩ = none ∧
    ext0.cutout2d imgG.data ⟨0, 0⟩ 7 ⟨⟨3⟩⟩ = some z5 ∧
    allFinite z5.data = true ∧ ¬ (5 < maskSum z5.mask) :=
  ⟨rfl, rfl, rfl, by decide⟩

/-- C4 amended: an entry survives the data-quality filter (and proceeds to
peak detection with its cutout) exactly when the cutout extraction succeeds
(the position overlaps the image), every pixel is finite, and fewer than 5
pixels (at most 4) are flagged invalid; otherwise it is silently skipped, and
`Image.build_startable` processes the remaining entries independently. -/
theorem star_filter_pass_iff (ext : Collab) (data : Arr) (wcs : Wcs)
    (coord : Coord) (z : CutoutData) :
    build_startable_filter ext data wcs coord = some z ↔
      (ext.cutout2d data coord 7 wcs = some z ∧ allFinite z.data = true ∧
       maskSum z.mask < 5) := by
  unfold build_startable_filter
  cases hcut : ext.cutout2d data coord 7 wcs with
  | none => simp
  | some z2 =>
    cases hf : allFinite z2.data with
    | false =>
      simp only [hf, Bool.not_false, if_true]
      constructor
      · intro h; exact Option.noConfusion h
      · rintro ⟨hz, hfin, _⟩
        cases hz
        rw [hf] at hfin
        exact Bool.noConfusion hfin
    | true =>
      by_cases hm : 5 ≤ maskSum z2.mask
      · simp only [hf, Bool.not_true, if_false, if_pos hm]
        constructor
        · intro h; exact Option.noConfusion h
        · rintro ⟨hz, _, hlt⟩
          cases hz
          omega
      · simp only [hf, Bool.not_true, if_false, if_neg hm]
        constructor
        · intro h
          cases h
          exact ⟨rfl, hf, by omega⟩
        · rintro ⟨hz, _, _⟩
          cases hz
          rfl

/-- C5: for every kernel the builder persists (a successful
`build_psf_finalize` with nonzero built flux), the stored kernel sums to 1
within 1e-4; it is the built kernel itself when the built flux already
deviates from 1 by less than 1e-4, and the built kernel divided by its total
flux otherwise (image.py lines 447-453). -/
theorem build_psf_stored_kernel_normalized (n : ℕ) (new_psf stored : Psf)
    (hok : build_psf_finalize n new_psf = .ok stored) (hs : psum new_psf ≠ 0) :
    |1 - psum stored| < 1/10000 ∧
    (|1 - psum new_psf| < 1/10000 → stored = new_psf) ∧
    (¬ |1 - psum new_psf| < 1/10000 → stored = psfDiv new_psf (psum new_psf)) := by
  unfold build_psf_finalize at hok
  split at hok
  · dsimp only [] at hok
    split at hok
    · next htol =>
        injection hok with hok
        subst hok
        exact ⟨htol, fun _ => rfl, fun hc => absurd htol hc⟩
    · next htol =>
        injection hok with hok
        subst hok
        refine ⟨?_, fun hc => absurd hc htol, fun _ => rfl⟩
        rw [psum_psfDiv, div_self hs]
        norm_num
  · exact Except.noConfusion hok

/-- Witness for C5 at the concrete build `build_psf_finalize 1 [[1/2, 1/4]]`,
whose built flux 3/4 is outside the tolerance, so the stored kernel is the
renormalized `[[2/3, 1/3]]`. -/
theorem build_psf_stored_kernel_normalized_witness :
    |1 - psum [[(2 : ℚ)/3, 1/3]]| < 1/10000 ∧
    (|1 - psum [[(1 : ℚ)/2, 1/4]]| < 1/10000 → ([[(2 : ℚ)/3, 1/3]] : Psf) = [[(1 : ℚ)/2, 1/4]]) ∧
    (¬ |1 - psum [[(1 : ℚ)/2, 1/4]]| < 1/10000 →
      ([[(2 : ℚ)/3, 1/3]] : Psf) = psfDiv [[(1 : ℚ)/2, 1/4]] (psum [[(1 : ℚ)/2, 1/4]])) :=
  build_psf_stored_kernel_normalized 1 [[1/2, 1/4]] [[2/3, 1/3]]
    (by with_unfolding_all rfl) (by norm_num [psum])

/-- C6: the empirical-PSF build aborts (with the fatal message of the
`sys.exit` at image.py line 441) exactly when the iterative builder accepted
zero good stars, and in that case no kernel is produced or persisted; with at
least one accepted star the build proceeds to store the kernel. -/
theorem build_psf_zero_good_stars_fatal (n : ℕ) (new_psf : Psf) :
    isError (build_psf_finalize n new_psf) = decide (n = 0) ∧
    build_psf_finalize 0 new_psf = .error "No stars were used for the fit." := by
  constructor
  · unfold build_psf_finalize
    rcases Nat.eq_zero_or_pos n with hn | hn
    · subst hn
      simp [isError]
    · rw [if_pos hn]
      dsimp only []
      split <;> simp [isError, Nat.pos_iff_ne_zero.mp hn]
  · rfl

/-- C7: the three consistency preconditions of the cross-convolution fit —
identical physical units, a present reference PSF, and a reference PSF pixel
scale equal to the target's pixel scale rounded to 3 decimals — are the first
three statements of `measure_psf` (musepsf.py lines 144-146, before any
numerical work), and violating any one of them makes the fit return an error,
so no fit result is produced. -/
theorem measure_psf_precondition_checks (ext : Collab) (self : MuseState)
    (reference : ImageState) (fit_alpha offset : Bool) (oversample : Option ℕ)
    (edge dx0 dy0 fwhm0 : ℚ) (mask_stars : Bool)
    (h : self.base.units ≠ reference.units ∨ reference.psf = none ∨
         reference.psfscale ≠ some (round3 (ext.proj_plane_pixel_scale self.base.wcs))) :
    isError (measure_psf ext self reference fit_alpha offset oversample
      edge dx0 dy0 fwhm0 mask_stars) = true := by
  unfold measure_psf
  split
  · rfl
  split
  · rfl
  split
  · rfl
  rename_i h1 h2 h3
  rcases h with h | h | h
  · exact absurd h h1
  · exact absurd h h2
  · exact absurd h h3

/-- Witness for C7: a reference with no PSF attached makes the concrete fit
abort. -/
theorem measure_psf_precondition_checks_witness :
    isError (measure_psf ext0 muse0 refNoPsf false false none 50 0 0 (4/5) true) = true :=
  measure_psf_precondition_checks ext0 muse0 refNoPsf false false none 50 0 0 (4/5) true
    (Or.inr (Or.inl rfl))

/-- C8: in every flux-calibration run, both arrays are binned into blocks with
a median and a standard deviation each (`bin_image` through `odr_rows`), every
regression row has non-NaN, nonzero medians on both sides (no block with a NaN
or exactly-zero median enters the fit), the rows that enter the ODR fit are a
sublist of all binned blocks, and afterwards the target's data equals
gamma times its previous value plus offset elementwise, with `(gamma, offset)`
the ODR fit of the surviving rows from the seed `beta0 = [1, 0]`
(musepsf.py lines 255-290). -/
theorem check_flux_calibration_spec (ext : Collab) (self : MuseState)
    (reference : Arr) (bin_size : ℕ) :
    (check_flux_calibration ext self reference bin_size).base.data =
      arrAffine (ext.odr (valid_rows ext self.base.data reference bin_size) (1, 0)).1
        (ext.odr (valid_rows ext self.base.data reference bin_size) (1, 0)).2
        self.base.data ∧
    (valid_rows ext self.base.data reference bin_size).all (fun r =>
      r.mMed.isSome && r.rMed.isSome &&
      decide (r.mMed ≠ some 0) && decide (r.rMed ≠ some 0)) = true ∧
    List.Sublist (valid_rows ext self.base.data reference bin_size)
      (odr_rows ext self.base.data reference bin_size) := by
  refine ⟨rfl, ?_, ?_⟩
  · simp only [List.all_eq_true]
    intro r hr
    unfold valid_rows at hr
    exact (List.mem_filter.mp hr).2
  · unfold valid_rows
    exact List.filter_sublist _

/-- C9: for every cutout that survives the data-quality filter, peak detection
runs at the threshold of 5 percent of the cutout maximum; more than one peak
rejects the entry, exactly one peak becomes the refined center, and no peak
falls back to the position of the global maximum (image.py lines 310-316). -/
theorem star_refine_peak_dispatch (zoom : CutoutData) :
    build_startable_refine zoom =
      match find_peaks_2d zoom.data (5/100 * nanmax zoom.data) with
      | [] => some (argmax2d zoom.data)
      | [p] => some p
      | _ :: _ :: _ => none := by
  unfold build_startable_refine
  rcases hp : find_peaks_2d zoom.data (5/100 * nanmax zoom.data) with _ | ⟨p, _ | ⟨q, t⟩⟩ <;>
    simp [hp]

/-- C10: `resample(pixscale=s)` re-opens the original file (image.py line 178)
and never reads the in-memory data array, so two states of the same image that
differ only in prior in-place modifications of the data (or any other
in-memory field) produce identical resampling results — the installed data,
header and wcs in the in-place mode and the returned triple otherwise — and
such modifications are silently discarded by this mode. -/
theorem resample_pixscale_ignores_data (ext : Collab) (s1 s2 : ImageState) (ps : ℚ)
    (hf : s1.filename = s2.filename) (hd : s1.input_dir = s2.input_dir) :
    ((Image.resample ext s1 none (some ps) true).map
        (fun p => (p.1.data, p.1.header, p.1.wcs)) =
      (Image.resample ext s2 none (some ps) true).map
        (fun p => (p.1.data, p.1.header, p.1.wcs))) ∧
    ((Image.resample ext s1 none (some ps) false).map (fun p => p.2) =
      (Image.resample ext s2 none (some ps) false).map (fun p => p.2)) := by
  constructor <;> simp [Image.resample, pathJoin, Except.map, hf, hd]

/-- Witness for C10: converting the units of `imgA` (which rescales its
in-memory data in place) does not change the result of pixscale-mode
resampling. -/
theorem resample_pixscale_ignores_data_witness :
    ((Image.resample ext0 imgA none (some 1) true).map
        (fun p => (p.1.data, p.1.header, p.1.wcs)) =
      (Image.resample ext0 (Image.convert_units ext0 imgA "Jy") none (some 1) true).map
        (fun p => (p.1.data, p.1.header, p.1.wcs))) ∧
    ((Image.resample ext0 imgA none (some 1) false).map (fun p => p.2) =
      (Image.resample ext0 (Image.convert_units ext0 imgA "Jy") none (some 1) false).map
        (fun p => p.2)) :=
  resample_pixscale_ignores_data ext0 imgA (Image.convert_units ext0 imgA "Jy") 1 rfl rfl
